import Mathlib

/-
  Verification of the Music Battle core (server.js + elo.js).

  Modelling notes.
  * The SQLite tables are modelled as association lists.  All per-session
    tables (personal_ratings, genre_affinity, the express-session
    recentBattles array, user_preferences) are modelled as the slice
    belonging to the one session/user a request carries, since every route
    only ever touches its own session's rows.
  * JavaScript numbers in the Elo computation are modelled as real numbers;
    Math.round is Mathlib's round (both round half-up, i.e. towards +inf).
  * Randomness (Math.random) is an oracle: a Rand record supplies the
    wildcard coin, the result of the random in-place sort, the two random
    indices (arbitrary naturals, reduced mod the list length exactly as
    Math.floor(Math.random()*len) lands in [0, len)), and the side coin.
  * A request id that is JSON-missing and the falsy id 0 are both modelled
    as the number 0 (catalog ids start at 1).
  * personal_ratings has PRIMARY KEY (session_id, song_id); better-sqlite3
    throws on a duplicate INSERT and the route has no try/catch, so that
    throw is modelled as an Except.error carrying the state reached so far.
-/

namespace MusicBattle

/-- A row of the songs table, with the columns added by the Elo migration. -/
structure Song where
  id : Nat
  title : String
  artist : String
  youtube_id : String
  start_time : Nat
  votes : Nat
  global_elo : Int
  total_battles : Nat
  total_wins : Nat
  genre : String
  prev_elo : Int
  deriving Repr, DecidableEq

/-- A row of the personal_ratings table (the fixed session's slice). -/
structure PersonalRating where
  elo : Int
  battles : Nat
  wins : Nat
  deriving Repr, DecidableEq

/-- A row of the genre_affinity table (the fixed session's slice). -/
structure Affinity where
  wins : Nat
  total_battles : Nat
  deriving Repr, DecidableEq

/-- The mutable state a battle/vote request can see: the songs table, the
fixed session's personal ratings, genre affinity, recent-battles array and
user_preferences rows, and the votes table. -/
structure ServerState where
  songs : List Song
  personal : List (Nat × PersonalRating)
  affinity : List (String × Affinity)
  userPrefs : List (String × Int)
  recentBattles : List (Nat × Nat)
  votesTable : List (Option String × Nat × Nat)
  deriving Repr

/-- The JSON body a successful vote returns. -/
structure VoteResponse where
  success : Bool
  message : String
  newVoteCount : Nat
  elo : Int
  eloChange : Int

/-- Result object of calculateElo (elo.js). -/
structure EloResult where
  newWinnerRating : Int
  newLoserRating : Int
  deriving Repr

/-- elo.js: calculateElo.  The JS call sites never pass kFactor, so the
undefined-check default of 32 is supplied at each call site here.
JS floating point is modelled by the reals; Math.round is round. -/
noncomputable def calculateElo (winnerRating loserRating kFactor : Int) : EloResult :=
  let expectedWin : ℝ :=
    1 / (1 + (10 : ℝ) ^ ((((loserRating : ℝ) - (winnerRating : ℝ)) / 400) : ℝ))
  let expectedLose : ℝ := 1 - expectedWin
  { newWinnerRating := round ((winnerRating : ℝ) + (kFactor : ℝ) * (1 - expectedWin))
    newLoserRating := round ((loserRating : ℝ) + (kFactor : ℝ) * (0 - expectedLose)) }

/-- SELECT elo FROM personal_ratings WHERE session_id = ? AND song_id = ?
(the session is fixed, so lookup by song id). -/
def lookupPersonal (tbl : List (Nat × PersonalRating)) (i : Nat) : Option PersonalRating :=
  (tbl.find? (fun q => q.1 == i)).map Prod.snd

/-- UPDATE personal_ratings SET ... WHERE session_id = ? AND song_id = ?. -/
def updatePersonal (tbl : List (Nat × PersonalRating)) (i : Nat)
    (f : PersonalRating → PersonalRating) : List (Nat × PersonalRating) :=
  tbl.map (fun q => if q.1 = i then (q.1, f q.2) else q)

/-- UPDATE songs SET ... WHERE id = ?. -/
def updWhere (songs : List Song) (i : Nat) (f : Song → Song) : List Song :=
  songs.map (fun s => if s.id = i then f s else s)

/-- SELECT * FROM songs WHERE id = ?. -/
def findSong (st : ServerState) (i : Nat) : Option Song :=
  st.songs.find? (fun s => s.id == i)

/-- genre_affinity upsert for the winner's genre:
INSERT VALUES (?, ?, 1, 1) ON CONFLICT DO UPDATE
SET wins = wins + 1, total_battles = total_battles + 1. -/
def upsertAffinityWin (tbl : List (String × Affinity)) (g : String) :
    List (String × Affinity) :=
  if (tbl.find? (fun q => q.1 == g)).isSome then
    tbl.map (fun q => if q.1 = g then
      (q.1, { wins := q.2.wins + 1, total_battles := q.2.total_battles + 1 }) else q)
  else tbl ++ [(g, { wins := 1, total_battles := 1 })]

/-- genre_affinity upsert for the loser's genre:
INSERT VALUES (?, ?, 0, 1) ON CONFLICT DO UPDATE
SET total_battles = total_battles + 1. -/
def upsertAffinityLoss (tbl : List (String × Affinity)) (g : String) :
    List (String × Affinity) :=
  if (tbl.find? (fun q => q.1 == g)).isSome then
    tbl.map (fun q => if q.1 = g then
      (q.1, { wins := q.2.wins, total_battles := q.2.total_battles + 1 }) else q)
  else tbl ++ [(g, { wins := 0, total_battles := 1 })]

/-- user_preferences upsert:
INSERT VALUES (?, ?, d) ON CONFLICT DO UPDATE SET score = score + d,
with d = 1 for the winner's artist and d = -1 for the loser's. -/
def upsertPref (tbl : List (String × Int)) (artist : String) (d : Int) :
    List (String × Int) :=
  if (tbl.find? (fun q => q.1 == artist)).isSome then
    tbl.map (fun q => if q.1 = artist then (q.1, q.2 + d) else q)
  else tbl ++ [(artist, d)]

/-- The recent-battles update of the vote route:
push [winnerId, loserId], then shift when the length exceeds 10. -/
def recencyStep (rb : List (Nat × Nat)) (p : Nat × Nat) : List (Nat × Nat) :=
  let l := rb ++ [p]
  if 10 < l.length then l.tail else l

/-- The dedup of recent pair ids done at the top of the battle route. -/
def recentSongIds (battles : List (Nat × Nat)) : List Nat :=
  battles.foldl (fun acc p =>
    let acc1 := if p.1 ∈ acc then acc else acc ++ [p.1]
    if p.2 ∈ acc1 then acc1 else acc1 ++ [p.2]) []

/-- Effective rating used by the matchmaker: the session's personal elo row
when one exists, otherwise the song's global elo. -/
def effectiveElo (st : ServerState) (s : Song) : Int :=
  match lookupPersonal st.personal s.id with
  | some p => p.elo
  | none => s.global_elo

/-- The available set of the battle route: songs not recently battled,
falling back to the whole catalog when that leaves fewer than 2. -/
def availableSongs (st : ServerState) : List Song :=
  let available0 := st.songs.filter (fun s => !((recentSongIds st.recentBattles).contains s.id))
  if available0.length < 2 then st.songs else available0

/-- The tiered candidate set of the battle route: opponents within 150 elo
of the seed, widened to 300, then anyone except the seed. -/
def opponentCandidates (st : ServerState) (available : List Song) (seed : Song) :
    List Song :=
  let candidates0 := available.filter
    (fun s => decide (s.id ≠ seed.id ∧ |effectiveElo st s - effectiveElo st seed| ≤ 150))
  let candidates1 := if candidates0.length = 0 then
      available.filter
        (fun s => decide (s.id ≠ seed.id ∧ |effectiveElo st s - effectiveElo st seed| ≤ 300))
    else candidates0
  if candidates1.length = 0 then
    available.filter (fun s => decide (s.id ≠ seed.id))
  else candidates1

/-- Oracle for the Math.random draws of one battle request: the wildcard
coin (random < 0.2), the rearrangement produced by the random in-place
sort, the two random indices, and the left/right coin (random > 0.5). -/
structure Rand where
  wildcard : Bool
  shuffled : List Song
  seedIdx : Nat
  oppIdx : Nat
  seedLeft : Bool

/-- The matchmaking route GET /api/battle.  The response carries the two
sides as the route would serialize them (undefined becomes none); the
returned state is the state after the request. -/
def selectPair (st : ServerState) (r : Rand) :
    Except String (Option Song × Option Song) × ServerState :=
  if st.songs.length < 2 then
    (Except.error "Not enough songs", st)
  else if r.wildcard then
    (Except.ok (r.shuffled[0]?, r.shuffled[1]?), st)
  else
    let available := availableSongs st
    match available[r.seedIdx % available.length]? with
    | none => (Except.error "TypeError: undefined seed", st)
    | some seed =>
      let candidates := opponentCandidates st available seed
      let opponent := candidates[r.oppIdx % candidates.length]?
      if r.seedLeft then (Except.ok (some seed, opponent), st)
      else (Except.ok (opponent, some seed), st)

/-- The vote route POST /api/vote, step for step:
missing-id check, song lookups, votes INSERT, legacy votes counter, global
Elo (prev_elo saves, winner and loser UPDATEs), personal Elo (lazy INSERT
at the pre-battle global elo, then UPDATEs), genre affinity upserts, the
bounded recent-battles push, the legacy user_preferences upserts, and the
response built from re-reading the winner row.  The second personal INSERT
can violate the (session_id, song_id) primary key, which better-sqlite3
surfaces as a thrown error; the route has no try/catch, so that path
returns an error with the state reached so far. -/
noncomputable def recordOutcome (st : ServerState) (userId : Option String)
    (winnerId loserId : Nat) : Except String VoteResponse × ServerState :=
  if winnerId = 0 ∨ loserId = 0 then
    (Except.error "winnerId and loserId required", st)
  else
    match st.songs.find? (fun s => s.id == winnerId),
          st.songs.find? (fun s => s.id == loserId) with
    | some winner, some loser =>
      let st1 : ServerState :=
        { st with votesTable := st.votesTable ++ [(userId, winnerId, loserId)] }
      let st2 : ServerState :=
        { st1 with songs := updWhere st1.songs winnerId (fun s => { s with votes := s.votes + 1 }) }
      let globalResult := calculateElo winner.global_elo loser.global_elo 32
      let st3 : ServerState :=
        { st2 with songs := updWhere st2.songs winnerId (fun s => { s with prev_elo := s.global_elo }) }
      let st4 : ServerState :=
        { st3 with songs := updWhere st3.songs loserId (fun s => { s with prev_elo := s.global_elo }) }
      let st5 : ServerState :=
        { st4 with songs := updWhere st4.songs winnerId (fun s => { s with global_elo := globalResult.newWinnerRating, total_battles := s.total_battles + 1, total_wins := s.total_wins + 1 }) }
      let st6 : ServerState :=
        { st5 with songs := updWhere st5.songs loserId (fun s => { s with global_elo := globalResult.newLoserRating, total_battles := s.total_battles + 1 }) }
      let personalWinner0 := lookupPersonal st6.personal winnerId
      let personalLoser0 := lookupPersonal st6.personal loserId
      -- lazy INSERT for the winner; its key cannot collide because the
      -- lookup just returned none and the table is unchanged since
      let st7 : ServerState :=
        match personalWinner0 with
        | none => { st6 with personal := st6.personal ++ [(winnerId, { elo := winner.global_elo, battles := 0, wins := 0 })] }
        | some _ => st6
      let personalWinner :=
        personalWinner0.getD { elo := winner.global_elo, battles := 0, wins := 0 }
      if personalLoser0.isNone && (lookupPersonal st7.personal loserId).isSome then
        (Except.error "SqliteError: UNIQUE constraint failed: personal_ratings", st7)
      else
        let st8 : ServerState :=
          match personalLoser0 with
          | none => { st7 with personal := st7.personal ++ [(loserId, { elo := loser.global_elo, battles := 0, wins := 0 })] }
          | some _ => st7
        let personalLoser :=
          personalLoser0.getD { elo := loser.global_elo, battles := 0, wins := 0 }
        let personalResult := calculateElo personalWinner.elo personalLoser.elo 32
        let st9 : ServerState :=
          { st8 with personal := updatePersonal st8.personal winnerId (fun p => { p with elo := personalResult.newWinnerRating, battles := p.battles + 1, wins := p.wins + 1 }) }
        let st10 : ServerState :=
          { st9 with personal := updatePersonal st9.personal loserId (fun p => { p with elo := personalResult.newLoserRating, battles := p.battles + 1 }) }
        let st11 : ServerState :=
          if winner.genre ≠ "" ∧ winner.genre ≠ "untagged" then
            { st10 with affinity := upsertAffinityWin st10.affinity winner.genre }
          else st10
        let st12 : ServerState :=
          if loser.genre ≠ "" ∧ loser.genre ≠ "untagged" then
            { st11 with affinity := upsertAffinityLoss st11.affinity loser.genre }
          else st11
        let st13 : ServerState :=
          { st12 with recentBattles := recencyStep st12.recentBattles (winnerId, loserId) }
        let st14 : ServerState :=
          match userId with
          | some _ => { st13 with userPrefs := upsertPref (upsertPref st13.userPrefs winner.artist 1) loser.artist (-1) }
          | none => st13
        match st14.songs.find? (fun s => s.id == winnerId) with
        | some updatedWinner =>
          (Except.ok { success := true
                       message := "Vote recorded for " ++ updatedWinner.title ++ "!"
                       newVoteCount := updatedWinner.votes
                       elo := updatedWinner.global_elo
                       eloChange := updatedWinner.global_elo - updatedWinner.prev_elo },
           st14)
        | none => (Except.error "TypeError: undefined updatedWinner", st14)
    | _, _ => (Except.error "Invalid song IDs", st)

/-! ### Spec-side definitions -/

/-- Modelled from the spec wording: expectedWin = 1 / (1 + 10^((loserRating - winnerRating)/400)). -/
noncomputable def eloExpectedWin (winnerRating loserRating : Int) : ℝ :=
  1 / (1 + (10 : ℝ) ^ ((((loserRating : ℝ) - (winnerRating : ℝ)) / 400) : ℝ))

/-! ### Claim C2 -/

theorem calculateElo_1500_1500 :
    calculateElo 1500 1500 32 = { newWinnerRating := 1516, newLoserRating := 1484 } := by
  have hexp : ((((1500 : Int) : ℝ) - ((1500 : Int) : ℝ)) / 400 : ℝ) = 0 := by
    push_cast
    norm_num
  simp only [calculateElo, EloResult.mk.injEq]
  rw [hexp, Real.rpow_zero]
  constructor
  · rw [round_eq, Int.floor_eq_iff]
    constructor
    · push_cast
      norm_num
    · push_cast
      norm_num
  · rw [round_eq, Int.floor_eq_iff]
    constructor
    · push_cast
      norm_num
    · push_cast
      norm_num

theorem calculateElo_1600_1400 :
    calculateElo 1600 1400 32 = { newWinnerRating := 1608, newLoserRating := 1392 } := by
  have h0 : (0 : ℝ) < Real.sqrt 10 := Real.sqrt_pos.mpr (by norm_num)
  have hsq : Real.sqrt 10 ^ 2 = 10 := Real.sq_sqrt (by norm_num)
  have hl : (2.9 : ℝ) < Real.sqrt 10 := by nlinarith
  have hu : Real.sqrt 10 < 3.2 := by nlinarith
  have hden : (0 : ℝ) < 1 + (Real.sqrt 10)⁻¹ := by positivity
  have hkey : (1 : ℝ) - 1 / (1 + (Real.sqrt 10)⁻¹) = 1 / (Real.sqrt 10 + 1) := by
    rw [eq_div_iff (by linarith)]
    field_simp
  have hb1 : (7.5 : ℝ) < 32 * (1 / (Real.sqrt 10 + 1)) := by
    rw [mul_one_div, lt_div_iff₀ (by linarith)]
    linarith
  have hb2 : 32 * (1 / (Real.sqrt 10 + 1)) < (8.4 : ℝ) := by
    rw [mul_one_div, div_lt_iff₀ (by linarith)]
    linarith
  have hexp : ((((1400 : Int) : ℝ) - ((1600 : Int) : ℝ)) / 400 : ℝ) = -(1 / 2 : ℝ) := by
    push_cast
    norm_num
  have hrpow : (10 : ℝ) ^ ((((1400 : Int) : ℝ) - ((1600 : Int) : ℝ)) / 400 : ℝ) =
      (Real.sqrt 10)⁻¹ := by
    rw [hexp, Real.rpow_neg (by norm_num), ← Real.sqrt_eq_rpow]
  simp only [calculateElo, EloResult.mk.injEq]
  rw [hrpow]
  constructor
  · rw [round_eq, Int.floor_eq_iff]
    constructor
    · push_cast
      rw [hkey]
      linarith
    · push_cast
      rw [hkey]
      linarith
  · rw [round_eq, Int.floor_eq_iff]
    constructor
    · push_cast
      rw [hkey]
      linarith
    · push_cast
      rw [hkey]
      linarith

/-- Claim C2: calculateElo computes, for all integer inputs, the pair
(round(winner + k*(1 - e)), round(loser - k*(1 - e))) with
e = 1/(1 + 10^((loser - winner)/400)), winner and loser rounded
independently; and in particular calculateElo 1500 1500 32 = (1516, 1484)
and calculateElo 1600 1400 32 = (1608, 1392). -/
theorem calculateElo_formula_and_values :
    (∀ w l k : Int, calculateElo w l k =
      { newWinnerRating := round ((w : ℝ) + (k : ℝ) * (1 - eloExpectedWin w l))
        newLoserRating := round ((l : ℝ) - (k : ℝ) * (1 - eloExpectedWin w l)) })
    ∧ calculateElo 1500 1500 32 = { newWinnerRating := 1516, newLoserRating := 1484 }
    ∧ calculateElo 1600 1400 32 = { newWinnerRating := 1608, newLoserRating := 1392 } := by
  refine ⟨fun w l k => ?_, calculateElo_1500_1500, calculateElo_1600_1400⟩
  simp only [calculateElo, eloExpectedWin, EloResult.mk.injEq]
  constructor
  · trivial
  · congr 1
    ring

/-! ### Matchmaker lemmas -/

theorem pick_some {l : List Song} (h : l ≠ []) (i : Nat) :
    ∃ x, l[i % l.length]? = some x ∧ x ∈ l := by
  have hlen : 0 < l.length := List.length_pos.mpr h
  have hm : i % l.length < l.length := Nat.mod_lt _ hlen
  exact ⟨l[i % l.length], List.getElem?_eq_getElem hm, List.getElem_mem hm⟩

theorem exists_other {l : List Song} (hnodup : (l.map Song.id).Nodup)
    (hlen : 2 ≤ l.length) (seed : Song) :
    ∃ x, x ∈ l ∧ x.id ≠ seed.id := by
  match l, hnodup, hlen with
  | a :: b :: rest, hnodup, _ =>
    have hab : a.id ≠ b.id := by
      have h1 := (List.nodup_cons.mp hnodup).1
      intro h
      exact h1 (by simp [h])
    by_cases h : a.id = seed.id
    · exact ⟨b, by simp, fun hb => hab (by rw [h, hb])⟩
    · exact ⟨a, by simp, h⟩

theorem availableSongs_facts (st : ServerState) (hlen : 2 ≤ st.songs.length)
    (hnodup : (st.songs.map Song.id).Nodup) :
    2 ≤ (availableSongs st).length ∧ (∀ x ∈ availableSongs st, x ∈ st.songs) ∧
      ((availableSongs st).map Song.id).Nodup := by
  unfold availableSongs
  by_cases h : (st.songs.filter fun s => !((recentSongIds st.recentBattles).contains s.id)).length < 2
  · rw [if_pos h]
    exact ⟨hlen, fun x hx => hx, hnodup⟩
  · rw [if_neg h]
    refine ⟨not_lt.mp h, fun x hx => List.mem_of_mem_filter hx, ?_⟩
    exact hnodup.sublist ((List.filter_sublist _).map Song.id)

theorem opponentCandidates_spec (st : ServerState) {available : List Song} (seed : Song)
    (hnodup : (available.map Song.id).Nodup) (hlen : 2 ≤ available.length) :
    opponentCandidates st available seed ≠ [] ∧
      ∀ x ∈ opponentCandidates st available seed, x ∈ available ∧ x.id ≠ seed.id := by
  obtain ⟨w, hw, hwid⟩ := exists_other hnodup hlen seed
  simp only [opponentCandidates]
  by_cases h0 : (available.filter
      (fun s => decide (s.id ≠ seed.id ∧ |effectiveElo st s - effectiveElo st seed| ≤ 150))).length = 0
  · rw [if_pos h0]
    by_cases h1 : (available.filter
        (fun s => decide (s.id ≠ seed.id ∧ |effectiveElo st s - effectiveElo st seed| ≤ 300))).length = 0
    · rw [if_pos h1]
      constructor
      · exact List.ne_nil_of_mem (List.mem_filter.mpr ⟨hw, by simpa using hwid⟩)
      · intro x hx
        have := List.mem_filter.mp hx
        exact ⟨this.1, by simpa using this.2⟩
    · rw [if_neg h1]
      constructor
      · exact fun hnil => h1 (by rw [hnil]; rfl)
      · intro x hx
        have := List.mem_filter.mp hx
        refine ⟨this.1, ?_⟩
        have h2 := this.2
        simp only [decide_eq_true_eq] at h2
        exact h2.1
  · rw [if_neg h0, if_neg h0]
    constructor
    · intro hnil
      exact h0 (by rw [hnil]; rfl)
    · intro x hx
      have := List.mem_filter.mp hx
      refine ⟨this.1, ?_⟩
      have h2 := this.2
      simp only [decide_eq_true_eq] at h2
      exact h2.1

/-- Claim C3: selectPair returns two catalog items with distinct ids whenever
the catalog has at least 2 items (for every recency/rating state and every
random draw), and errors out, before any pairing work, exactly when the
catalog has fewer than 2 items. -/
theorem selectPair_distinct_or_insufficient (st : ServerState) (r : Rand)
    (hnodup : (st.songs.map Song.id).Nodup) (hperm : r.shuffled.Perm st.songs) :
    (2 ≤ st.songs.length →
      ∃ a b, (selectPair st r).1 = Except.ok (some a, some b) ∧
        a ∈ st.songs ∧ b ∈ st.songs ∧ a.id ≠ b.id)
    ∧ (st.songs.length < 2 → (selectPair st r).1 = Except.error "Not enough songs") := by
  constructor
  · intro hlen
    have hnot : ¬ st.songs.length < 2 := not_lt.mpr hlen
    cases hw0 : r.wildcard with
    | true =>
      have hlenp : 2 ≤ r.shuffled.length := by rw [hperm.length_eq]; exact hlen
      have hndsh : (r.shuffled.map Song.id).Nodup := ((hperm.map Song.id).nodup_iff).mpr hnodup
      match hsh : r.shuffled, hlenp with
      | a :: b :: rest, _ =>
        rw [hsh] at hndsh
        have hab : a.id ≠ b.id := by
          have h1 := (List.nodup_cons.mp hndsh).1
          intro h
          exact h1 (by simp [h])
        have hasub : a ∈ st.songs := hperm.mem_iff.mp (by rw [hsh]; simp)
        have hbsub : b ∈ st.songs := hperm.mem_iff.mp (by rw [hsh]; simp)
        refine ⟨a, b, ?_, hasub, hbsub, hab⟩
        simp only [selectPair, hw0, hsh]
        rw [if_neg hnot]
        simp
    | false =>
      obtain ⟨hav2, havsub, havnd⟩ := availableSongs_facts st hlen hnodup
      have havne : availableSongs st ≠ [] := by
        intro h
        rw [h] at hav2
        simp at hav2
      obtain ⟨seed, hseedq, hseedm⟩ := pick_some havne r.seedIdx
      obtain ⟨hcne, hcmem⟩ := opponentCandidates_spec st seed havnd hav2
      obtain ⟨opp, hoppq, hoppm⟩ := pick_some hcne r.oppIdx
      obtain ⟨hoppav, hoppne⟩ := hcmem opp hoppm
      have hresult : (selectPair st r).1 = Except.ok (some seed, some opp) ∨
          (selectPair st r).1 = Except.ok (some opp, some seed) := by
        simp only [selectPair, hw0]
        rw [if_neg hnot]
        simp only [Bool.false_eq_true, if_false, hseedq, hoppq]
        cases r.seedLeft
        · right
          rfl
        · left
          rfl
      cases hresult with
      | inl h => exact ⟨seed, opp, h, havsub seed hseedm, havsub opp hoppav, fun he => hoppne he.symm⟩
      | inr h => exact ⟨opp, seed, h, havsub opp hoppav, havsub seed hseedm, hoppne⟩
  · intro hlt
    simp only [selectPair]
    rw [if_pos hlt]

/-- Claim C10: the battle route mutates nothing: the state after selectPair
is the state before it, for every session state and random draw; in
particular resolving an absent personal rating during matchmaking reads the
global rating without persisting any personal-rating initialization. -/
theorem selectPair_no_mutation (st : ServerState) (r : Rand) :
    (selectPair st r).2 = st ∧
      ∀ i, lookupPersonal (selectPair st r).2.personal i = lookupPersonal st.personal i := by
  have h2 : (selectPair st r).2 = st := by
    simp only [selectPair]
    repeat' split
    all_goals rfl
  exact ⟨h2, fun i => by rw [h2]⟩

/-- Claim C7: in the non-wildcard branch every item's effective rating is
its personal rating for the session when one exists, else its global
rating, and the opponent is drawn from the available items (seed excluded)
within 150 points of the seed's effective rating, else those within 300
points, else all available items except the seed. -/
theorem matchmaking_tiered_windows (st : ServerState) (r : Rand) (seed : Song)
    (hnodup : (st.songs.map Song.id).Nodup)
    (hw0 : r.wildcard = false) (hlen : 2 ≤ st.songs.length)
    (hseed : (availableSongs st)[r.seedIdx % (availableSongs st).length]? = some seed) :
    (∀ s : Song, effectiveElo st s =
      match lookupPersonal st.personal s.id with
      | some p => p.elo
      | none => s.global_elo) ∧
    ∃ opp,
      ((selectPair st r).1 = Except.ok (some seed, some opp) ∨
       (selectPair st r).1 = Except.ok (some opp, some seed)) ∧
      (if (availableSongs st).filter
          (fun s => decide (s.id ≠ seed.id ∧ |effectiveElo st s - effectiveElo st seed| ≤ 150)) ≠ [] then
        opp ∈ (availableSongs st).filter
          (fun s => decide (s.id ≠ seed.id ∧ |effectiveElo st s - effectiveElo st seed| ≤ 150))
      else if (availableSongs st).filter
          (fun s => decide (s.id ≠ seed.id ∧ |effectiveElo st s - effectiveElo st seed| ≤ 300)) ≠ [] then
        opp ∈ (availableSongs st).filter
          (fun s => decide (s.id ≠ seed.id ∧ |effectiveElo st s - effectiveElo st seed| ≤ 300))
      else opp ∈ (availableSongs st).filter (fun s => decide (s.id ≠ seed.id))) := by
  obtain ⟨hav2, havsub, havnd⟩ := availableSongs_facts st hlen hnodup
  obtain ⟨hcne, hcmem⟩ := opponentCandidates_spec st seed havnd hav2
  obtain ⟨opp, hoppq, hoppm⟩ := pick_some hcne r.oppIdx
  refine ⟨fun s => rfl, opp, ?_, ?_⟩
  · simp only [selectPair, hw0]
    rw [if_neg (not_lt.mpr hlen)]
    simp only [Bool.false_eq_true, if_false, hseed, hoppq]
    cases r.seedLeft
    · right
      rfl
    · left
      rfl
  · have hopp := hoppm
    simp only [opponentCandidates] at hopp
    by_cases h0 : ((availableSongs st).filter
        (fun s => decide (s.id ≠ seed.id ∧ |effectiveElo st s - effectiveElo st seed| ≤ 150))).length = 0
    · rw [if_pos h0] at hopp
      rw [if_neg (by simpa using List.length_eq_zero.mp h0)]
      by_cases h1 : ((availableSongs st).filter
          (fun s => decide (s.id ≠ seed.id ∧ |effectiveElo st s - effectiveElo st seed| ≤ 300))).length = 0
      · rw [if_pos h1] at hopp
        rw [if_neg (by simpa using List.length_eq_zero.mp h1)]
        exact hopp
      · rw [if_neg h1] at hopp
        have hne1 : ((availableSongs st).filter
            (fun s => decide (s.id ≠ seed.id ∧ |effectiveElo st s - effectiveElo st seed| ≤ 300))) ≠ [] := by
          intro hnil
          exact h1 (by rw [hnil]; rfl)
        rw [if_pos hne1]
        exact hopp
    · rw [if_neg h0, if_neg h0] at hopp
      have hne0 : ((availableSongs st).filter
          (fun s => decide (s.id ≠ seed.id ∧ |effectiveElo st s - effectiveElo st seed| ≤ 150))) ≠ [] := by
        intro hnil
        exact h0 (by rw [hnil]; rfl)
      rw [if_pos hne0]
      exact hopp

theorem opponentCandidates_pair_left (st : ServerState) (a b : Song) (h : b.id ≠ a.id) :
    opponentCandidates st [a, b] a = [b] := by
  simp only [opponentCandidates, List.filter_cons, List.filter_nil]
  by_cases h150 : |effectiveElo st b - effectiveElo st a| ≤ 150
  · simp [h, h150]
  · by_cases h300 : |effectiveElo st b - effectiveElo st a| ≤ 300
    · simp [h, h150, h300]
    · simp [h, h150, h300]

theorem opponentCandidates_pair_right (st : ServerState) (a b : Song) (h : a.id ≠ b.id) :
    opponentCandidates st [a, b] b = [a] := by
  simp only [opponentCandidates, List.filter_cons, List.filter_nil]
  by_cases h150 : |effectiveElo st a - effectiveElo st b| ≤ 150
  · simp [h, h150]
  · by_cases h300 : |effectiveElo st a - effectiveElo st b| ≤ 300
    · simp [h, h150, h300]
    · simp [h, h150, h300]

theorem availableSongs_pair (st : ServerState) (a b : Song) (hsongs : st.songs = [a, b]) :
    availableSongs st = [a, b] := by
  simp only [availableSongs, hsongs]
  by_cases h : (([a, b] : List Song).filter
      (fun s => !((recentSongIds st.recentBattles).contains s.id))).length < 2
  · rw [if_pos h]
  · rw [if_neg h]
    refine (List.filter_sublist _).eq_of_length ?_
    have hle := (List.filter_sublist ([a, b] : List Song)
      (p := fun s => !((recentSongIds st.recentBattles).contains s.id))).length_le
    have h2 : ([a, b] : List Song).length = 2 := rfl
    omega

/-- Claim C8: with a catalog of exactly 2 items selectPair always returns
both items, one on each side, for every recency state and rating
configuration, in the wildcard branch as well as the filtered branch. -/
theorem selectPair_two_item_catalog (st : ServerState) (r : Rand) (a b : Song)
    (hsongs : st.songs = [a, b]) (hne : a.id ≠ b.id) (hperm : r.shuffled.Perm st.songs) :
    (selectPair st r).1 = Except.ok (some a, some b) ∨
      (selectPair st r).1 = Except.ok (some b, some a) := by
  have hlen : st.songs.length = 2 := by rw [hsongs]; rfl
  have hnot : ¬ st.songs.length < 2 := by omega
  cases hw0 : r.wildcard with
  | true =>
    rw [hsongs] at hperm
    have hlen2 : r.shuffled.length = 2 := by rw [hperm.length_eq]; rfl
    obtain ⟨x, y, hsh⟩ := List.length_eq_two.mp hlen2
    rw [hsh] at hperm
    have hx : x ∈ ([a, b] : List Song) := hperm.subset (by simp)
    have hcases : r.shuffled = [a, b] ∨ r.shuffled = [b, a] := by
      rcases (by simpa using hx : x = a ∨ x = b) with hxa | hxb
      · left
        rw [hxa] at hperm
        have hy : [y] = [b] := List.perm_singleton.mp ((List.perm_cons a).mp hperm)
        have hy2 : y = b := by simpa using hy
        rw [hsh, hxa, hy2]
      · right
        rw [hxb] at hperm
        have hperm2 : List.Perm (b :: [y]) (b :: [a]) :=
          hperm.trans (List.Perm.swap b a [])
        have hy : [y] = [a] := List.perm_singleton.mp ((List.perm_cons b).mp hperm2)
        have hy2 : y = a := by simpa using hy
        rw [hsh, hxb, hy2]
    cases hcases with
    | inl h =>
      left
      simp only [selectPair, hw0, h]
      rw [if_neg hnot]
      simp
    | inr h =>
      right
      simp only [selectPair, hw0, h]
      rw [if_neg hnot]
      simp
  | false =>
    have hav : availableSongs st = [a, b] := availableSongs_pair st a b hsongs
    have havne : availableSongs st ≠ [] := by rw [hav]; simp
    obtain ⟨seed, hseedq, hseedm⟩ := pick_some havne r.seedIdx
    rw [hav] at hseedm
    rcases (by simpa using hseedm : seed = a ∨ seed = b) with hsa | hsb
    · subst hsa
      have hcand : opponentCandidates st (availableSongs st) seed = [b] := by
        rw [hav]
        exact opponentCandidates_pair_left st seed b (Ne.symm hne)
      have hoppq : (opponentCandidates st (availableSongs st) seed)[r.oppIdx %
          (opponentCandidates st (availableSongs st) seed).length]? = some b := by
        rw [hcand]
        simp [Nat.mod_one]
      simp only [selectPair, hw0]
      rw [if_neg hnot]
      simp only [Bool.false_eq_true, if_false, hseedq, hoppq]
      cases r.seedLeft
      · right
        rfl
      · left
        rfl
    · subst hsb
      have hcand : opponentCandidates st (availableSongs st) seed = [a] := by
        rw [hav]
        exact opponentCandidates_pair_right st a seed hne
      have hoppq : (opponentCandidates st (availableSongs st) seed)[r.oppIdx %
          (opponentCandidates st (availableSongs st) seed).length]? = some a := by
        rw [hcand]
        simp [Nat.mod_one]
      simp only [selectPair, hw0]
      rw [if_neg hnot]
      simp only [Bool.false_eq_true, if_false, hseedq, hoppq]
      cases r.seedLeft
      · left
        rfl
      · right
        rfl

/-! ### Table-update lemmas for the vote route -/

theorem find?_updWhere (l : List Song) (i j : Nat) (f : Song → Song)
    (hf : ∀ s, (f s).id = s.id) :
    (updWhere l i f).find? (fun s => s.id == j) =
      (l.find? (fun s => s.id == j)).map (fun s => if s.id = i then f s else s) := by
  unfold updWhere
  rw [List.find?_map]
  have hpred : ((fun s : Song => s.id == j) ∘ (fun s : Song => if s.id = i then f s else s)) =
      (fun s : Song => s.id == j) := by
    funext s
    by_cases h : s.id = i <;> simp [Function.comp, h, hf]
  rw [hpred]

theorem lookupPersonal_append_ne (l : List (Nat × PersonalRating)) (i j : Nat)
    (p : PersonalRating) (h : j ≠ i) :
    lookupPersonal (l ++ [(i, p)]) j = lookupPersonal l j := by
  unfold lookupPersonal
  rw [List.find?_append]
  cases hf : l.find? (fun q => q.1 == j) <;> simp [hf, Ne.symm h]

theorem lookupPersonal_append_self (l : List (Nat × PersonalRating)) (i : Nat)
    (p : PersonalRating) (h : lookupPersonal l i = none) :
    lookupPersonal (l ++ [(i, p)]) i = some p := by
  unfold lookupPersonal at h ⊢
  rw [List.find?_append]
  cases hf : l.find? (fun q => q.1 == i)
  · simp
  · rw [hf] at h
    simp at h

theorem lookupPersonal_updatePersonal_self (l : List (Nat × PersonalRating)) (i : Nat)
    (f : PersonalRating → PersonalRating) :
    lookupPersonal (updatePersonal l i f) i = (lookupPersonal l i).map f := by
  unfold lookupPersonal updatePersonal
  rw [List.find?_map]
  have hpred : ((fun q : Nat × PersonalRating => q.1 == i) ∘
      (fun q : Nat × PersonalRating => if q.1 = i then (q.1, f q.2) else q)) =
      (fun q : Nat × PersonalRating => q.1 == i) := by
    funext q
    by_cases h : q.1 = i <;> simp [Function.comp, h]
  rw [hpred]
  cases hf : l.find? (fun q : Nat × PersonalRating => q.1 == i) with
  | none => rfl
  | some q =>
    have hq : q.1 = i := by simpa using List.find?_some hf
    simp [hq]

theorem lookupPersonal_updatePersonal_ne (l : List (Nat × PersonalRating)) (i j : Nat)
    (f : PersonalRating → PersonalRating) (h : j ≠ i) :
    lookupPersonal (updatePersonal l i f) j = lookupPersonal l j := by
  unfold lookupPersonal updatePersonal
  rw [List.find?_map]
  have hpred : ((fun q : Nat × PersonalRating => q.1 == j) ∘
      (fun q : Nat × PersonalRating => if q.1 = i then (q.1, f q.2) else q)) =
      (fun q : Nat × PersonalRating => q.1 == j) := by
    funext q
    by_cases hq : q.1 = i <;> simp [Function.comp, hq]
  rw [hpred]
  cases hf : l.find? (fun q : Nat × PersonalRating => q.1 == j) with
  | none => rfl
  | some q =>
    have hq : q.1 = j := by simpa using List.find?_some hf
    simp [hq, h]

/-- The five songs-table UPDATEs the vote route performs, in order:
legacy votes counter, the two prev_elo saves, and the two global Elo and
counter updates. -/
def voteSongsChain (songs : List Song) (A B : Nat) (gW gL : Int) : List Song :=
  updWhere (updWhere (updWhere (updWhere (updWhere songs
    A (fun s => { s with votes := s.votes + 1 }))
    A (fun s => { s with prev_elo := s.global_elo }))
    B (fun s => { s with prev_elo := s.global_elo }))
    A (fun s => { s with global_elo := gW, total_battles := s.total_battles + 1, total_wins := s.total_wins + 1 }))
    B (fun s => { s with global_elo := gL, total_battles := s.total_battles + 1 })

theorem recordOutcome_songs (st : ServerState) (uid : Option String) (A B : Nat)
    (wS lS : Song) (hA0 : A ≠ 0) (hB0 : B ≠ 0)
    (hA : st.songs.find? (fun s => s.id == A) = some wS)
    (hB : st.songs.find? (fun s => s.id == B) = some lS) :
    (recordOutcome st uid A B).2.songs =
      voteSongsChain st.songs A B (calculateElo wS.global_elo lS.global_elo 32).newWinnerRating
        (calculateElo wS.global_elo lS.global_elo 32).newLoserRating := by
  have hval : ¬(A = 0 ∨ B = 0) := by
    push_neg
    exact ⟨hA0, hB0⟩
  simp only [recordOutcome, hA, hB]
  rw [if_neg hval]
  repeat' split
  all_goals rfl

theorem findSong_chain_A (songs : List Song) (A B : Nat) (wS : Song) (gW gL : Int)
    (hA : songs.find? (fun s => s.id == A) = some wS) (hne : A ≠ B) :
    (voteSongsChain songs A B gW gL).find? (fun s => s.id == A) =
      some { wS with votes := wS.votes + 1, prev_elo := wS.global_elo, global_elo := gW, total_battles := wS.total_battles + 1, total_wins := wS.total_wins + 1 } := by
  have hwid : wS.id = A := by simpa using List.find?_some hA
  unfold voteSongsChain
  rw [find?_updWhere, find?_updWhere, find?_updWhere, find?_updWhere, find?_updWhere, hA]
  all_goals first
    | (intro s; rfl)
    | simp [hwid, hne]

theorem findSong_chain_B (songs : List Song) (A B : Nat) (lS : Song) (gW gL : Int)
    (hB : songs.find? (fun s => s.id == B) = some lS) (hne : A ≠ B) :
    (voteSongsChain songs A B gW gL).find? (fun s => s.id == B) =
      some { lS with prev_elo := lS.global_elo, global_elo := gL, total_battles := lS.total_battles + 1 } := by
  have hlid : lS.id = B := by simpa using List.find?_some hB
  unfold voteSongsChain
  rw [find?_updWhere, find?_updWhere, find?_updWhere, find?_updWhere, find?_updWhere, hB]
  all_goals first
    | (intro s; rfl)
    | simp [hlid, Ne.symm hne]

theorem findSong_chain_eq (songs : List Song) (A : Nat) (wS : Song) (gW gL : Int)
    (hA : songs.find? (fun s => s.id == A) = some wS) :
    (voteSongsChain songs A A gW gL).find? (fun s => s.id == A) =
      some { wS with votes := wS.votes + 1, prev_elo := wS.global_elo, global_elo := gL, total_battles := wS.total_battles + 1 + 1, total_wins := wS.total_wins + 1 } := by
  have hwid : wS.id = A := by simpa using List.find?_some hA
  unfold voteSongsChain
  rw [find?_updWhere, find?_updWhere, find?_updWhere, find?_updWhere, find?_updWhere, hA]
  all_goals first
    | (intro s; rfl)
    | simp [hwid]

theorem recordOutcome_recentBattles (st : ServerState) (uid : Option String) (A B : Nat)
    (wS lS : Song) (hA0 : A ≠ 0) (hB0 : B ≠ 0)
    (hA : st.songs.find? (fun s => s.id == A) = some wS)
    (hB : st.songs.find? (fun s => s.id == B) = some lS) (hne : A ≠ B) :
    (recordOutcome st uid A B).2.recentBattles = recencyStep st.recentBattles (A, B) := by
  have hval : ¬(A = 0 ∨ B = 0) := by
    push_neg
    exact ⟨hA0, hB0⟩
  have hBA : B ≠ A := Ne.symm hne
  cases hpw : lookupPersonal st.personal A with
  | none =>
    cases hpl : lookupPersonal st.personal B with
    | none =>
      simp only [recordOutcome, hA, hB, hpw, hpl]
      rw [if_neg hval]
      simp only [Option.isNone_none, Bool.true_and,
        lookupPersonal_append_ne st.personal A B { elo := wS.global_elo, battles := 0, wins := 0 } hBA,
        hpl, Option.isSome_none, Bool.false_eq_true, if_false]
      repeat' split
      all_goals rfl
    | some pl =>
      simp only [recordOutcome, hA, hB, hpw, hpl]
      rw [if_neg hval]
      simp only [Option.isNone_some, Bool.false_and, Bool.false_eq_true, if_false]
      repeat' split
      all_goals rfl
  | some pw =>
    cases hpl : lookupPersonal st.personal B with
    | none =>
      simp only [recordOutcome, hA, hB, hpw, hpl]
      rw [if_neg hval]
      simp only [Option.isNone_none, Bool.true_and, hpl, Option.isSome_none,
        Bool.false_eq_true, if_false]
      repeat' split
      all_goals rfl
    | some pl =>
      simp only [recordOutcome, hA, hB, hpw, hpl]
      rw [if_neg hval]
      simp only [Option.isNone_some, Bool.false_and, Bool.false_eq_true, if_false]
      repeat' split
      all_goals rfl

theorem recordOutcome_ok (st : ServerState) (uid : Option String) (A B : Nat)
    (wS lS : Song) (hA0 : A ≠ 0) (hB0 : B ≠ 0)
    (hA : st.songs.find? (fun s => s.id == A) = some wS)
    (hB : st.songs.find? (fun s => s.id == B) = some lS) (hne : A ≠ B) :
    (recordOutcome st uid A B).1 = Except.ok
      { success := true
        message := "Vote recorded for " ++ wS.title ++ "!"
        newVoteCount := wS.votes + 1
        elo := (calculateElo wS.global_elo lS.global_elo 32).newWinnerRating
        eloChange := (calculateElo wS.global_elo lS.global_elo 32).newWinnerRating - wS.global_elo } := by
  have hval : ¬(A = 0 ∨ B = 0) := by
    push_neg
    exact ⟨hA0, hB0⟩
  have hBA : B ≠ A := Ne.symm hne
  have hchain := findSong_chain_A st.songs A B wS
    (calculateElo wS.global_elo lS.global_elo 32).newWinnerRating
    (calculateElo wS.global_elo lS.global_elo 32).newLoserRating hA hne
  cases hpw : lookupPersonal st.personal A with
  | none =>
    cases hpl : lookupPersonal st.personal B with
    | none =>
      simp only [recordOutcome, hA, hB, hpw, hpl]
      rw [if_neg hval]
      simp only [Option.isNone_none, Bool.true_and,
        lookupPersonal_append_ne st.personal A B { elo := wS.global_elo, battles := 0, wins := 0 } hBA,
        hpl, Option.isSome_none, Bool.false_eq_true, if_false]
      split
      · rename_i u heq
        repeat' split at heq
        all_goals (
          have heq2 : (voteSongsChain st.songs A B
              (calculateElo wS.global_elo lS.global_elo 32).newWinnerRating
              (calculateElo wS.global_elo lS.global_elo 32).newLoserRating).find?
              (fun s => s.id == A) = some u := heq
          rw [hchain] at heq2
          injection heq2 with hu
          subst hu
          rfl)
      · rename_i heq
        repeat' split at heq
        all_goals (
          have heq2 : (voteSongsChain st.songs A B
              (calculateElo wS.global_elo lS.global_elo 32).newWinnerRating
              (calculateElo wS.global_elo lS.global_elo 32).newLoserRating).find?
              (fun s => s.id == A) = none := heq
          rw [hchain] at heq2
          cases heq2)
    | some pl =>
      simp only [recordOutcome, hA, hB, hpw, hpl]
      rw [if_neg hval]
      simp only [Option.isNone_some, Bool.false_and, Bool.false_eq_true, if_false]
      split
      · rename_i u heq
        repeat' split at heq
        all_goals (
          have heq2 : (voteSongsChain st.songs A B
              (calculateElo wS.global_elo lS.global_elo 32).newWinnerRating
              (calculateElo wS.global_elo lS.global_elo 32).newLoserRating).find?
              (fun s => s.id == A) = some u := heq
          rw [hchain] at heq2
          injection heq2 with hu
          subst hu
          rfl)
      · rename_i heq
        repeat' split at heq
        all_goals (
          have heq2 : (voteSongsChain st.songs A B
              (calculateElo wS.global_elo lS.global_elo 32).newWinnerRating
              (calculateElo wS.global_elo lS.global_elo 32).newLoserRating).find?
              (fun s => s.id == A) = none := heq
          rw [hchain] at heq2
          cases heq2)
  | some pw =>
    cases hpl : lookupPersonal st.personal B with
    | none =>
      simp only [recordOutcome, hA, hB, hpw, hpl]
      rw [if_neg hval]
      simp only [Option.isNone_none, Bool.true_and, hpl, Option.isSome_none,
        Bool.false_eq_true, if_false]
      split
      · rename_i u heq
        repeat' split at heq
        all_goals (
          have heq2 : (voteSongsChain st.songs A B
              (calculateElo wS.global_elo lS.global_elo 32).newWinnerRating
              (calculateElo wS.global_elo lS.global_elo 32).newLoserRating).find?
              (fun s => s.id == A) = some u := heq
          rw [hchain] at heq2
          injection heq2 with hu
          subst hu
          rfl)
      · rename_i heq
        repeat' split at heq
        all_goals (
          have heq2 : (voteSongsChain st.songs A B
              (calculateElo wS.global_elo lS.global_elo 32).newWinnerRating
              (calculateElo wS.global_elo lS.global_elo 32).newLoserRating).find?
              (fun s => s.id == A) = none := heq
          rw [hchain] at heq2
          cases heq2)
    | some pl =>
      simp only [recordOutcome, hA, hB, hpw, hpl]
      rw [if_neg hval]
      simp only [Option.isNone_some, Bool.false_and, Bool.false_eq_true, if_false]
      split
      · rename_i u heq
        repeat' split at heq
        all_goals (
          have heq2 : (voteSongsChain st.songs A B
              (calculateElo wS.global_elo lS.global_elo 32).newWinnerRating
              (calculateElo wS.global_elo lS.global_elo 32).newLoserRating).find?
              (fun s => s.id == A) = some u := heq
          rw [hchain] at heq2
          injection heq2 with hu
          subst hu
          rfl)
      · rename_i heq
        repeat' split at heq
        all_goals (
          have heq2 : (voteSongsChain st.songs A B
              (calculateElo wS.global_elo lS.global_elo 32).newWinnerRating
              (calculateElo wS.global_elo lS.global_elo 32).newLoserRating).find?
              (fun s => s.id == A) = none := heq
          rw [hchain] at heq2
          cases heq2)

theorem recordOutcome_ok_eq (st : ServerState) (uid : Option String) (A : Nat)
    (wS : Song) (pw : PersonalRating) (hA0 : A ≠ 0)
    (hA : st.songs.find? (fun s => s.id == A) = some wS)
    (hpw : lookupPersonal st.personal A = some pw) :
    (recordOutcome st uid A A).1 = Except.ok
      { success := true
        message := "Vote recorded for " ++ wS.title ++ "!"
        newVoteCount := wS.votes + 1
        elo := (calculateElo wS.global_elo wS.global_elo 32).newLoserRating
        eloChange := (calculateElo wS.global_elo wS.global_elo 32).newLoserRating - wS.global_elo } := by
  have hval : ¬(A = 0 ∨ A = 0) := by
    push_neg
    exact ⟨hA0, hA0⟩
  have hchain := findSong_chain_eq st.songs A wS
    (calculateElo wS.global_elo wS.global_elo 32).newWinnerRating
    (calculateElo wS.global_elo wS.global_elo 32).newLoserRating hA
  simp only [recordOutcome, hA, hpw]
  rw [if_neg hval]
  simp only [Option.isNone_some, Bool.false_and, Bool.false_eq_true, if_false]
  split
  · rename_i u heq
    repeat' split at heq
    all_goals (
      have heq2 : (voteSongsChain st.songs A A
          (calculateElo wS.global_elo wS.global_elo 32).newWinnerRating
          (calculateElo wS.global_elo wS.global_elo 32).newLoserRating).find?
          (fun s => s.id == A) = some u := heq
      rw [hchain] at heq2
      injection heq2 with hu
      subst hu
      rfl)
  · rename_i heq
    repeat' split at heq
    all_goals (
      have heq2 : (voteSongsChain st.songs A A
          (calculateElo wS.global_elo wS.global_elo 32).newWinnerRating
          (calculateElo wS.global_elo wS.global_elo 32).newLoserRating).find?
          (fun s => s.id == A) = none := heq
      rw [hchain] at heq2
      cases heq2)

theorem recordOutcome_error_eq (st : ServerState) (uid : Option String) (A : Nat)
    (wS : Song) (hA0 : A ≠ 0)
    (hA : st.songs.find? (fun s => s.id == A) = some wS)
    (hpw : lookupPersonal st.personal A = none) :
    (recordOutcome st uid A A).1 =
      Except.error "SqliteError: UNIQUE constraint failed: personal_ratings" := by
  have hval : ¬(A = 0 ∨ A = 0) := by
    push_neg
    exact ⟨hA0, hA0⟩
  simp only [recordOutcome, hA, hpw]
  rw [if_neg hval]
  simp only [Option.isNone_none, Bool.true_and,
    lookupPersonal_append_self st.personal A { elo := wS.global_elo, battles := 0, wins := 0 } hpw,
    Option.isSome_some, if_true]

theorem recencyStep_length (rb : List (Nat × Nat)) (p : Nat × Nat)
    (h : rb.length ≤ 10) : (recencyStep rb p).length ≤ 10 := by
  simp only [recencyStep]
  split
  · simpa using h
  · rename_i hlen
    simp only [List.length_append, List.length_cons, List.length_nil] at hlen ⊢
    omega

theorem recordOutcome_recency_bound (st : ServerState) (uid : Option String) (A B : Nat)
    (h : st.recentBattles.length ≤ 10) :
    (recordOutcome st uid A B).2.recentBattles.length ≤ 10 := by
  by_cases hval : A = 0 ∨ B = 0
  · simp only [recordOutcome]
    rw [if_pos hval]
    exact h
  · cases hfw : st.songs.find? (fun s => s.id == A) with
    | none =>
      simp only [recordOutcome, hfw]
      rw [if_neg hval]
      cases hfl : st.songs.find? (fun s => s.id == B) <;> exact h
    | some wS =>
      cases hfl : st.songs.find? (fun s => s.id == B) with
      | none =>
        simp only [recordOutcome, hfw, hfl]
        rw [if_neg hval]
        exact h
      | some lS =>
        cases hpw : lookupPersonal st.personal A with
        | none =>
          cases hpl : lookupPersonal st.personal B with
          | none =>
            simp only [recordOutcome, hfw, hfl, hpw, hpl]
            rw [if_neg hval]
            repeat' split
            all_goals first
              | exact h
              | exact recencyStep_length _ _ h
          | some pl =>
            simp only [recordOutcome, hfw, hfl, hpw, hpl]
            rw [if_neg hval]
            repeat' split
            all_goals first
              | exact h
              | exact recencyStep_length _ _ h
        | some pw =>
          cases hpl : lookupPersonal st.personal B with
          | none =>
            simp only [recordOutcome, hfw, hfl, hpw, hpl]
            rw [if_neg hval]
            repeat' split
            all_goals first
              | exact h
              | exact recencyStep_length _ _ h
          | some pl =>
            simp only [recordOutcome, hfw, hfl, hpw, hpl]
            rw [if_neg hval]
            repeat' split
            all_goals first
              | exact h
              | exact recencyStep_length _ _ h

theorem recencyStep_foldl (ps : List (Nat × Nat)) :
    ∀ rb : List (Nat × Nat), rb.length ≤ 10 →
      ps.foldl recencyStep rb = (rb ++ ps).drop ((rb ++ ps).length - 10) := by
  induction ps with
  | nil =>
    intro rb h
    simp [Nat.sub_eq_zero_of_le h]
  | cons p ps ih =>
    intro rb h
    simp only [List.foldl_cons]
    rw [ih (recencyStep rb p) (recencyStep_length rb p h)]
    by_cases hlen : rb.length + 1 ≤ 10
    · have hstep : recencyStep rb p = rb ++ [p] := by
        simp only [recencyStep]
        rw [if_neg (by simp; omega)]
      rw [hstep, List.append_assoc]
      rfl
    · have h10 : rb.length = 10 := by omega
      have hne : rb ≠ [] := by
        intro hnil
        rw [hnil] at h10
        simp at h10
      obtain ⟨x, rb2, hx⟩ := List.exists_cons_of_ne_nil hne
      subst hx
      have h9 : rb2.length = 9 := by simpa using h10
      have hstep : recencyStep (x :: rb2) p = rb2 ++ [p] := by
        simp only [recencyStep]
        rw [if_pos (by simp [h9])]
        rfl
      rw [hstep, List.append_assoc]
      have hl1 : (rb2 ++ ([p] ++ ps)).length - 10 = ps.length := by
        simp only [List.length_append, List.length_cons, List.length_nil, h9]
        omega
      have hl2 : ((x :: rb2) ++ (p :: ps)).length - 10 = ps.length + 1 := by
        simp only [List.length_append, List.length_cons, List.length_nil, h9]
        omega
      rw [hl1, hl2]
      simp only [List.cons_append, List.nil_append]
      rw [List.drop_succ_cons]

/-- Claim C9: when the vote involves a session-item pair with no personal
rating, a personal record is created initialized to that item's global
rating as read at the start of the outcome (not a fixed constant), the
initialization is persisted, and that value with zero battles and wins is
the base of this outcome's personal update: after the call the stored row
is the Elo update of the global-rating base with battles 0+1 and, for the
winner, wins 0+1. -/
theorem personal_rating_lazy_init (st : ServerState) (uid : Option String) (A B : Nat)
    (wS lS : Song) (hA0 : A ≠ 0) (hB0 : B ≠ 0)
    (hA : st.songs.find? (fun s => s.id == A) = some wS)
    (hB : st.songs.find? (fun s => s.id == B) = some lS) (hne : A ≠ B) :
    (lookupPersonal st.personal A = none →
      lookupPersonal (recordOutcome st uid A B).2.personal A =
        some { elo := (calculateElo wS.global_elo ((lookupPersonal st.personal B).getD { elo := lS.global_elo, battles := 0, wins := 0 }).elo 32).newWinnerRating, battles := 1, wins := 1 })
    ∧ (lookupPersonal st.personal B = none →
      lookupPersonal (recordOutcome st uid A B).2.personal B =
        some { elo := (calculateElo ((lookupPersonal st.personal A).getD { elo := wS.global_elo, battles := 0, wins := 0 }).elo lS.global_elo 32).newLoserRating, battles := 1, wins := 0 }) := by
  have hval : ¬(A = 0 ∨ B = 0) := by
    push_neg
    exact ⟨hA0, hB0⟩
  have hBA : B ≠ A := Ne.symm hne
  constructor
  · intro hpw
    cases hpl : lookupPersonal st.personal B with
    | none =>
      simp only [recordOutcome, hA, hB, hpw, hpl]
      rw [if_neg hval]
      simp only [Option.isNone_none, Bool.true_and,
        lookupPersonal_append_ne st.personal A B { elo := wS.global_elo, battles := 0, wins := 0 } hBA,
        hpl, Option.isSome_none, Bool.false_eq_true, if_false]
      repeat' split
      all_goals (
        dsimp only
        rw [lookupPersonal_updatePersonal_ne _ B A _ hne, lookupPersonal_updatePersonal_self,
          lookupPersonal_append_ne _ B A _ hne,
          lookupPersonal_append_self st.personal A _ hpw]
        simp)
    | some pl =>
      simp only [recordOutcome, hA, hB, hpw, hpl]
      rw [if_neg hval]
      simp only [Option.isNone_some, Bool.false_and, Bool.false_eq_true, if_false]
      repeat' split
      all_goals (
        dsimp only
        rw [lookupPersonal_updatePersonal_ne _ B A _ hne, lookupPersonal_updatePersonal_self,
          lookupPersonal_append_self st.personal A _ hpw]
        simp)
  · intro hpl
    cases hpw : lookupPersonal st.personal A with
    | none =>
      simp only [recordOutcome, hA, hB, hpw, hpl]
      rw [if_neg hval]
      simp only [Option.isNone_none, Bool.true_and,
        lookupPersonal_append_ne st.personal A B { elo := wS.global_elo, battles := 0, wins := 0 } hBA,
        hpl, Option.isSome_none, Bool.false_eq_true, if_false]
      have hpl2 : lookupPersonal (st.personal ++ [(A, { elo := wS.global_elo, battles := 0, wins := 0 })]) B = none := by
        rw [lookupPersonal_append_ne _ A B _ hBA]
        exact hpl
      repeat' split
      all_goals (
        dsimp only
        rw [lookupPersonal_updatePersonal_self,
          lookupPersonal_updatePersonal_ne _ A B _ hBA,
          lookupPersonal_append_self _ B _ hpl2]
        simp)
    | some pw =>
      simp only [recordOutcome, hA, hB, hpw, hpl]
      rw [if_neg hval]
      simp only [Option.isNone_none, Bool.true_and, hpl, Option.isSome_none,
        Bool.false_eq_true, if_false]
      repeat' split
      all_goals (
        dsimp only
        rw [lookupPersonal_updatePersonal_self,
          lookupPersonal_updatePersonal_ne _ A B _ hBA,
          lookupPersonal_append_self st.personal B _ hpl]
        simp)

/-- Claim C4: after a successful recordOutcome with distinct ids, the
winner's total_battles and total_wins counters each increase by exactly 1,
and the loser's total_battles increases by exactly 1 while its total_wins
is unchanged. -/
theorem recordOutcome_global_counters (st : ServerState) (uid : Option String)
    (A B : Nat) (wS lS : Song) (hA0 : A ≠ 0) (hB0 : B ≠ 0)
    (hA : st.songs.find? (fun s => s.id == A) = some wS)
    (hB : st.songs.find? (fun s => s.id == B) = some lS) (hne : A ≠ B) :
    ∃ wS2 lS2, findSong (recordOutcome st uid A B).2 A = some wS2 ∧
      findSong (recordOutcome st uid A B).2 B = some lS2 ∧
      wS2.total_battles = wS.total_battles + 1 ∧ wS2.total_wins = wS.total_wins + 1 ∧
      lS2.total_battles = lS.total_battles + 1 ∧ lS2.total_wins = lS.total_wins := by
  have hsongs := recordOutcome_songs st uid A B wS lS hA0 hB0 hA hB
  refine ⟨{ wS with votes := wS.votes + 1, prev_elo := wS.global_elo, global_elo := (calculateElo wS.global_elo lS.global_elo 32).newWinnerRating, total_battles := wS.total_battles + 1, total_wins := wS.total_wins + 1 },
    { lS with prev_elo := lS.global_elo, global_elo := (calculateElo wS.global_elo lS.global_elo 32).newLoserRating, total_battles := lS.total_battles + 1 },
    ?_, ?_, rfl, rfl, rfl, rfl⟩
  · unfold findSong
    rw [hsongs]
    exact findSong_chain_A st.songs A B wS _ _ hA hne
  · unfold findSong
    rw [hsongs]
    exact findSong_chain_B st.songs A B lS _ _ hB hne

/-- Claim C5: every successful recordOutcome call returns the winner's new
global rating and a signed delta equal to the new global rating minus the
winner's global rating immediately before the outcome was applied. -/
theorem recordOutcome_returns_new_rating_and_delta (st : ServerState) (uid : Option String)
    (A B : Nat) (wS lS : Song) (hA0 : A ≠ 0) (hB0 : B ≠ 0)
    (hA : st.songs.find? (fun s => s.id == A) = some wS)
    (hB : st.songs.find? (fun s => s.id == B) = some lS) :
    ∀ resp, (recordOutcome st uid A B).1 = Except.ok resp →
      ∃ wS2, findSong (recordOutcome st uid A B).2 A = some wS2 ∧
        resp.elo = wS2.global_elo ∧ resp.eloChange = wS2.global_elo - wS.global_elo := by
  intro resp hresp
  by_cases hne : A = B
  · subst hne
    have hWL : wS = lS := by
      rw [hA] at hB
      exact Option.some.inj hB
    subst hWL
    cases hpw : lookupPersonal st.personal A with
    | none =>
      rw [recordOutcome_error_eq st uid A wS hA0 hA hpw] at hresp
      cases hresp
    | some pw =>
      rw [recordOutcome_ok_eq st uid A wS pw hA0 hA hpw] at hresp
      injection hresp with hr
      subst hr
      have hsongs := recordOutcome_songs st uid A A wS wS hA0 hA0 hA hA
      refine ⟨{ wS with votes := wS.votes + 1, prev_elo := wS.global_elo, global_elo := (calculateElo wS.global_elo wS.global_elo 32).newLoserRating, total_battles := wS.total_battles + 1 + 1, total_wins := wS.total_wins + 1 }, ?_, rfl, rfl⟩
      unfold findSong
      rw [hsongs]
      exact findSong_chain_eq st.songs A wS _ _ hA
  · rw [recordOutcome_ok st uid A B wS lS hA0 hB0 hA hB hne] at hresp
    injection hresp with hr
    subst hr
    have hsongs := recordOutcome_songs st uid A B wS lS hA0 hB0 hA hB
    refine ⟨{ wS with votes := wS.votes + 1, prev_elo := wS.global_elo, global_elo := (calculateElo wS.global_elo lS.global_elo 32).newWinnerRating, total_battles := wS.total_battles + 1, total_wins := wS.total_wins + 1 }, ?_, rfl, rfl⟩
    unfold findSong
    rw [hsongs]
    exact findSong_chain_A st.songs A B wS _ _ hA hne

/-- Claim C6: the per-session recent-battles sequence never exceeds 10
entries and the bound is preserved by every recordOutcome call; each
successful outcome appends (winnerId, loserId) at the tail and evicts
exactly the oldest entry when the length would exceed 10; consequently
folding the recorded outcomes from an empty history leaves exactly the
most recent 10 pairs in order. -/
theorem recency_bounded_fifo :
    (∀ (st : ServerState) (uid : Option String) (A B : Nat),
      st.recentBattles.length ≤ 10 → (recordOutcome st uid A B).2.recentBattles.length ≤ 10)
    ∧ (∀ (st : ServerState) (uid : Option String) (A B : Nat) (wS lS : Song),
        A ≠ 0 → B ≠ 0 → st.songs.find? (fun s => s.id == A) = some wS →
        st.songs.find? (fun s => s.id == B) = some lS → A ≠ B →
        (recordOutcome st uid A B).2.recentBattles = recencyStep st.recentBattles (A, B))
    ∧ (∀ ps : List (Nat × Nat), ps.foldl recencyStep [] = ps.drop (ps.length - 10)) := by
  refine ⟨fun st uid A B h => recordOutcome_recency_bound st uid A B h,
    fun st uid A B wS lS h1 h2 h3 h4 h5 => recordOutcome_recentBattles st uid A B wS lS h1 h2 h3 h4 h5,
    fun ps => ?_⟩
  have h := recencyStep_foldl ps [] (by simp)
  simpa using h

/-! ### Concrete states for the failing input and the witnesses -/

/-- Catalog item 1 of the seed data, at its initial rating. -/
def songPop : Song :=
  { id := 1, title := "Blinding Lights", artist := "The Weeknd", youtube_id := "4NRXx6U8ABQ", start_time := 30, votes := 0, global_elo := 1500, total_battles := 0, total_wins := 0, genre := "pop", prev_elo := 1500 }

/-- Catalog item 16 of the seed data, at its initial rating. -/
def songRock : Song :=
  { id := 16, title := "Believer", artist := "Imagine Dragons", youtube_id := "7wtfhZwyrcc", start_time := 55, votes := 0, global_elo := 1500, total_battles := 0, total_wins := 0, genre := "rock", prev_elo := 1500 }

/-- A fresh two-song state. -/
def sampleState : ServerState :=
  { songs := [songPop, songRock], personal := [], affinity := [], userPrefs := [], recentBattles := [], votesTable := [] }

/-- The state of Claim C1's failing input: the session already holds a
personal rating row for song 1, so the duplicate-key throw is not hit. -/
def equalIdsState : ServerState :=
  { sampleState with personal := [(1, { elo := 1500, battles := 0, wins := 0 })] }

/-- A fixed random draw: no wildcard, both indices 0, seed on the left,
and the random sort swapping the two songs. -/
def sampleRand : Rand :=
  { wildcard := false, shuffled := [songRock, songPop], seedIdx := 0, oppIdx := 0, seedLeft := true }

/-- Claim C1 (code bug): a vote with winnerId = loserId = 1, both resolving
to catalog item 1, is NOT rejected as InvalidOutcome: the call succeeds and
mutates state.  From the single vote, item 1 gains 2 total_battles and 1
total_wins, its legacy votes counter grows, the personal rating row is
updated twice, and the pair (1, 1) enters the recency history. -/
theorem equal_ids_vote_succeeds_and_mutates :
    (recordOutcome equalIdsState none 1 1).1.isOk = true ∧
    ((recordOutcome equalIdsState none 1 1).2.songs.find? (fun s => s.id == 1)).map Song.total_battles = some 2 ∧
    ((recordOutcome equalIdsState none 1 1).2.songs.find? (fun s => s.id == 1)).map Song.total_wins = some 1 ∧
    ((recordOutcome equalIdsState none 1 1).2.songs.find? (fun s => s.id == 1)).map Song.votes = some 1 ∧
    (lookupPersonal (recordOutcome equalIdsState none 1 1).2.personal 1).map PersonalRating.battles = some 2 ∧
    (recordOutcome equalIdsState none 1 1).2.recentBattles = [(1, 1)] :=
  ⟨rfl, rfl, rfl, rfl, rfl, rfl⟩

/-! ### Witnesses -/

theorem selectPair_distinct_or_insufficient_witness :
    ((sampleState.songs.map Song.id).Nodup ∧ sampleRand.shuffled.Perm sampleState.songs) ∧
    ((2 ≤ sampleState.songs.length →
      ∃ a b, (selectPair sampleState sampleRand).1 = Except.ok (some a, some b) ∧
        a ∈ sampleState.songs ∧ b ∈ sampleState.songs ∧ a.id ≠ b.id)
    ∧ (sampleState.songs.length < 2 →
      (selectPair sampleState sampleRand).1 = Except.error "Not enough songs")) :=
  ⟨⟨by decide, List.Perm.swap songPop songRock []⟩,
    selectPair_distinct_or_insufficient sampleState sampleRand (by decide)
      (List.Perm.swap songPop songRock [])⟩

theorem recordOutcome_global_counters_witness :
    ((1 : Nat) ≠ 0 ∧ (16 : Nat) ≠ 0 ∧
     sampleState.songs.find? (fun s => s.id == 1) = some songPop ∧
     sampleState.songs.find? (fun s => s.id == 16) = some songRock ∧ (1 : Nat) ≠ 16) ∧
    (∃ wS2 lS2, findSong (recordOutcome sampleState none 1 16).2 1 = some wS2 ∧
      findSong (recordOutcome sampleState none 1 16).2 16 = some lS2 ∧
      wS2.total_battles = songPop.total_battles + 1 ∧ wS2.total_wins = songPop.total_wins + 1 ∧
      lS2.total_battles = songRock.total_battles + 1 ∧ lS2.total_wins = songRock.total_wins) :=
  ⟨⟨by decide, by decide, rfl, rfl, by decide⟩,
    recordOutcome_global_counters sampleState none 1 16 songPop songRock
      (by decide) (by decide) rfl rfl (by decide)⟩

theorem recordOutcome_returns_new_rating_and_delta_witness :
    (sampleState.songs.find? (fun s => s.id == 1) = some songPop ∧
     sampleState.songs.find? (fun s => s.id == 16) = some songRock) ∧
    (∀ resp, (recordOutcome sampleState none 1 16).1 = Except.ok resp →
      ∃ wS2, findSong (recordOutcome sampleState none 1 16).2 1 = some wS2 ∧
        resp.elo = wS2.global_elo ∧ resp.eloChange = wS2.global_elo - songPop.global_elo) :=
  ⟨⟨rfl, rfl⟩,
    recordOutcome_returns_new_rating_and_delta sampleState none 1 16 songPop songRock
      (by decide) (by decide) rfl rfl⟩

theorem recency_bounded_fifo_witness :
    (sampleState.recentBattles.length ≤ 10 ∧
      (recordOutcome sampleState none 1 16).2.recentBattles.length ≤ 10) ∧
    (recordOutcome sampleState none 1 16).2.recentBattles =
      recencyStep sampleState.recentBattles (1, 16) ∧
    [((1 : Nat), (2 : Nat)), (3, 4), (5, 6), (7, 8), (9, 10), (11, 12), (13, 14), (15, 16),
        (17, 18), (19, 20), (21, 22), (23, 24), (25, 26), (27, 28), (29, 30)].foldl recencyStep [] =
      [((1 : Nat), (2 : Nat)), (3, 4), (5, 6), (7, 8), (9, 10), (11, 12), (13, 14), (15, 16),
        (17, 18), (19, 20), (21, 22), (23, 24), (25, 26), (27, 28), (29, 30)].drop
        ([((1 : Nat), (2 : Nat)), (3, 4), (5, 6), (7, 8), (9, 10), (11, 12), (13, 14), (15, 16),
          (17, 18), (19, 20), (21, 22), (23, 24), (25, 26), (27, 28), (29, 30)].length - 10) :=
  ⟨⟨by decide, recency_bounded_fifo.1 sampleState none 1 16 (by decide)⟩,
    recency_bounded_fifo.2.1 sampleState none 1 16 songPop songRock
      (by decide) (by decide) rfl rfl (by decide),
    recency_bounded_fifo.2.2 _⟩

theorem matchmaking_tiered_windows_witness :
    ((sampleState.songs.map Song.id).Nodup ∧ sampleRand.wildcard = false ∧
      2 ≤ sampleState.songs.length ∧
      (availableSongs sampleState)[sampleRand.seedIdx % (availableSongs sampleState).length]? =
        some songPop) ∧
    ((∀ s : Song, effectiveElo sampleState s =
      match lookupPersonal sampleState.personal s.id with
      | some p => p.elo
      | none => s.global_elo) ∧
    ∃ opp,
      ((selectPair sampleState sampleRand).1 = Except.ok (some songPop, some opp) ∨
       (selectPair sampleState sampleRand).1 = Except.ok (some opp, some songPop)) ∧
      (if (availableSongs sampleState).filter (fun s => decide (s.id ≠ songPop.id ∧ |effectiveElo sampleState s - effectiveElo sampleState songPop| ≤ 150)) ≠ [] then
        opp ∈ (availableSongs sampleState).filter (fun s => decide (s.id ≠ songPop.id ∧ |effectiveElo sampleState s - effectiveElo sampleState songPop| ≤ 150))
      else if (availableSongs sampleState).filter (fun s => decide (s.id ≠ songPop.id ∧ |effectiveElo sampleState s - effectiveElo sampleState songPop| ≤ 300)) ≠ [] then
        opp ∈ (availableSongs sampleState).filter (fun s => decide (s.id ≠ songPop.id ∧ |effectiveElo sampleState s - effectiveElo sampleState songPop| ≤ 300))
      else opp ∈ (availableSongs sampleState).filter (fun s => decide (s.id ≠ songPop.id)))) :=
  ⟨⟨by decide, rfl, by decide, rfl⟩,
    matchmaking_tiered_windows sampleState sampleRand songPop (by decide) rfl (by decide) rfl⟩

theorem selectPair_two_item_catalog_witness :
    (sampleState.songs = [songPop, songRock] ∧ songPop.id ≠ songRock.id ∧
      sampleRand.shuffled.Perm sampleState.songs) ∧
    ((selectPair sampleState sampleRand).1 = Except.ok (some songPop, some songRock) ∨
      (selectPair sampleState sampleRand).1 = Except.ok (some songRock, some songPop)) :=
  ⟨⟨rfl, by decide, List.Perm.swap songPop songRock []⟩,
    selectPair_two_item_catalog sampleState sampleRand songPop songRock rfl (by decide)
      (List.Perm.swap songPop songRock [])⟩

theorem personal_rating_lazy_init_witness :
    (sampleState.songs.find? (fun s => s.id == 1) = some songPop ∧
      sampleState.songs.find? (fun s => s.id == 16) = some songRock ∧
      lookupPersonal sampleState.personal 1 = none) ∧
    lookupPersonal (recordOutcome sampleState none 1 16).2.personal 1 =
      some { elo := (calculateElo songPop.global_elo ((lookupPersonal sampleState.personal 16).getD { elo := songRock.global_elo, battles := 0, wins := 0 }).elo 32).newWinnerRating, battles := 1, wins := 1 } :=
  ⟨⟨rfl, rfl, rfl⟩,
    (personal_rating_lazy_init sampleState none 1 16 songPop songRock
      (by decide) (by decide) rfl rfl (by decide)).1 rfl⟩

end MusicBattle